import Mathlib

/-
Verification of the block IR of the graphql-compiler repository
(src/graphql_compiler/compiler/blocks.py) against its specification.

The Python module is shallowly embedded below.  Python exceptions are
modelled with `Except PyError`; Python's dynamic typing, where a claim
depends on it, is modelled with the `PyVal` type of dynamic values; a
Python `set` is modelled as the list of its elements in iteration order;
a Python `dict` is modelled as the association list of its entries in
insertion order (keys distinct); Python object identity (`is`) on
expressions is modelled by tagging each `Expression` with an object id.

The helpers module (`compiler/helpers.py`) and the entities module
(`compiler_entities.py`) are not part of the shown source; the handful of
helper functions the blocks call are modelled from the specification's
description of them and are marked `Modelled from the spec:` below.
-/

set_option maxRecDepth 8000

deriving instance DecidableEq for Except

namespace GQLC

/-- The kinds of Python exception raised by the blocks module: `TypeError`
and `ValueError` from the `validate` methods, `GraphQLCompilationError`
(here `compilationError`) from the safety helpers, and `AssertionError`
from `CoerceType.to_gremlin`. -/
inductive PyError where
  | typeError (msg : String)
  | valueError (msg : String)
  | compilationError (msg : String)
  | assertionError (msg : String)
deriving DecidableEq, Repr

/-- Validation-style errors (the spec's `InvalidBlock` kind) as opposed to
the fatal `AssertionError` (the spec's `UnsupportedConstruct` kind). -/
def PyError.isValidation : PyError → Bool
  | .typeError _ => true
  | .valueError _ => true
  | .compilationError _ => true
  | .assertionError _ => false

/-- The single-quote character, written via its code point. -/
def squote : String := String.singleton (Char.ofNat 39)

/-- Modelled from the spec: the identifier-safety predicate of
`helpers.validate_safe_string` (not under the shown source): an
identifier string must be non-empty and drawn from a restricted character
set that cannot inject into generated text. -/
def is_safe_string (s : String) : Bool :=
  (!s.isEmpty) && s.toList.all (fun c => c.isAlphanum || c == '_')

/-- Modelled from the spec: `helpers.validate_safe_string` raises a
validation error on any string rejected by the identifier-safety check. -/
def validate_safe_string (s : String) : Except PyError Unit :=
  if is_safe_string s then .ok ()
  else .error (.compilationError ("Unsafe string is not a valid identifier: " ++ s))

/-- The set of allowed edge directions (spec: `direction` is `in` or `out`). -/
def ALLOWED_EDGE_DIRECTIONS : List String := ["out", "in"]

/-- Modelled from the spec: `helpers.validate_edge_direction` raises
unless the direction is one of the allowed edge directions. -/
def validate_edge_direction (direction : String) : Except PyError Unit :=
  if direction ∈ ALLOWED_EDGE_DIRECTIONS then .ok ()
  else .error (.valueError ("Provided edge direction is not valid: " ++ direction))

/-- Modelled from the spec: `helpers.safe_quoted_string` — quoting of an
identifier is delegated to this shared helper, assumed to safely escape
any value accepted by the identifier-safety check.  On identifiers passing
that check (which contain no quote or backslash characters) it is plain
single-quote wrapping. -/
def safe_quoted_string (s : String) : String := squote ++ s ++ squote

/-- Modelled from the spec: the `Expression` contract — an expression
supports rendering to Gremlin text and participates in identity-preserving
rewrites.  `oid` is the Python object id (used to model `is`), `gremlin`
is the text its `to_gremlin()` produces. -/
structure Expr where
  oid : Nat
  gremlin : String
deriving DecidableEq, Repr

/-- Modelled from the spec: a `BaseLocation` exposes `get_location_name()`
(here the `mark_name` field) and knows whether it points at a property
field (which cannot be marked). -/
structure BaseLocation where
  mark_name : String
  at_property : Bool
deriving DecidableEq, Repr

/-- Modelled from the spec: a `FoldScopeLocation` names a point inside a
fold context. -/
structure FoldScopeLocation where
  mark_name : String
deriving DecidableEq, Repr

/-- Modelled from the spec: `helpers.validate_marked_location` — a
location can be marked only if it is not at a property field. -/
def validate_marked_location (l : BaseLocation) : Except PyError Unit :=
  if l.at_property then
    .error (.compilationError ("Cannot mark location at a property field: " ++ l.mark_name))
  else .ok ()

/-- Run a list of string validations in order, stopping at the first
failure; models `for cls in ...: validate_safe_string(cls)`. -/
def validate_all_safe : List String → Except PyError Unit
  | [] => .ok ()
  | s :: rest =>
    match validate_safe_string s with
    | .error e => .error e
    | .ok _ => validate_all_safe rest

/-- `QueryRoot`: the starting object of the query.  The Python `set`
field `start_class` is modelled as the list of its elements in iteration
order. -/
structure QueryRoot where
  start_class : List String
deriving DecidableEq, Repr

/-- `QueryRoot.validate` (the part remaining once the `isinstance` checks
are enforced by the embedding's types): every class name must be safe. -/
def QueryRoot.validate (b : QueryRoot) : Except PyError Unit :=
  validate_all_safe b.start_class

/-- `QueryRoot.to_gremlin`: single-class indexed form vs. multi-class
disjunctive form, following the source's `len(...) == 1` test and its
iteration over the set. -/
def QueryRoot.to_gremlin (b : QueryRoot) : Except PyError String :=
  match QueryRoot.validate b with
  | .error e => .error e
  | .ok _ =>
    if b.start_class.length = 1 then
      .ok ("g.V(" ++ squote ++ "@class" ++ squote ++ ", "
        ++ safe_quoted_string (b.start_class.headD "") ++ ")")
    else
      .ok ("g.V.has(" ++ squote ++ "@class" ++ squote ++ ", T.in, ["
        ++ String.intercalate "," (b.start_class.map safe_quoted_string) ++ "])")

/-- `CoerceType`: keeps only data of the given types; must be lowered away
before rendering. -/
structure CoerceType where
  target_class : List String
deriving DecidableEq, Repr

/-- `CoerceType.validate`: every class name must be safe. -/
def CoerceType.validate (b : CoerceType) : Except PyError Unit :=
  validate_all_safe b.target_class

/-- `CoerceType.to_gremlin`: unconditionally raises `AssertionError`
without validating or producing text. -/
def CoerceType.to_gremlin (_ : CoerceType) : Except PyError String :=
  .error (.assertionError
    ("CoerceType blocks must be appropriately lowered before being "
      ++ "transformed into Gremlin code. This function should not be used."))

/-- `ConstructResult`: output-field name to expression mapping, modelled
as the association list of the dict's entries in insertion order. -/
structure ConstructResult where
  fields : List (String × Expr)
deriving DecidableEq, Repr

/-- Key-by-key validation of the `fields` dict: each key must be a safe
identifier (each value is an `Expression` by the embedding's types). -/
def validate_result_fields : List (String × Expr) → Except PyError Unit
  | [] => .ok ()
  | (k, _) :: rest =>
    match validate_safe_string k with
    | .error e => .error e
    | .ok _ => validate_result_fields rest

/-- `ConstructResult.validate`. -/
def ConstructResult.validate (b : ConstructResult) : Except PyError Unit :=
  validate_result_fields b.fields

/-- Dictionary indexing `d[k]`: first entry with the given key. -/
def dictLookup (k : String) : List (String × Expr) → Option Expr
  | [] => Option.none
  | (k₂, v) :: rest => if k = k₂ then some v else dictLookup k rest

/-- Lexicographic comparison of char lists by code point, the order
Python's `sorted` uses on strings. -/
def lexLe : List Char → List Char → Bool
  | [], _ => true
  | _ :: _, [] => false
  | a :: as, b :: bs =>
    if a < b then true
    else if b < a then false
    else lexLe as bs

/-- String comparison for `sorted(self.fields.keys())`. -/
def strLeB (a b : String) : Bool := lexLe a.toList b.toList

/-- The same comparison as a relation, for sortedness statements. -/
def strLe (a b : String) : Prop := strLeB a b = true

instance : DecidableRel strLe := fun a b => instDecidableEqBool (strLeB a b) true

/-- Python's `sorted` on a list of strings. -/
def sortStrings (l : List String) : List String := List.insertionSort strLe l

/-- `ConstructResult.to_gremlin`: renders the ODocument transform with the
field assignments listed in sorted key order. -/
def ConstructResult.to_gremlin (b : ConstructResult) : Except PyError String :=
  match ConstructResult.validate b with
  | .error e => .error e
  | .ok _ =>
    .ok ("transform\x7bit, m -> new com.orientechnologies.orient.core.record.impl.ODocument([ "
      ++ String.intercalate ", "
        ((sortStrings (b.fields.map Prod.fst)).map (fun key =>
          key ++ ": " ++ (match dictLookup key b.fields with
            | some e => e.gremlin
            | Option.none => "")))
      ++ " ])\x7d")

/-- `ConstructResult.visit_and_update_expressions`: collects the entries
whose expression the rewrite changed (changed = `is not`, i.e. a different
object id); if any changed it builds a fresh block from
`dict(self.fields, **new_fields)`, otherwise it returns `self`.  The
`Bool` component records whether the returned block is the same instance
as `self`. -/
def ConstructResult.visit_and_update_expressions
    (b : ConstructResult) (vu : Expr → Expr) : Bool × ConstructResult :=
  let new_fields := b.fields.filterMap (fun kv =>
    if (vu kv.2).oid = kv.2.oid then Option.none else some (kv.1, vu kv.2))
  if new_fields.isEmpty then
    (true, b)
  else
    (false, ⟨b.fields.map (fun kv =>
      match dictLookup kv.1 new_fields with
      | some nv => (kv.1, nv)
      | Option.none => kv)⟩)

/-- `Filter`: wraps one predicate expression. -/
structure Filter where
  predicate : Expr
deriving DecidableEq, Repr

/-- `Filter.validate`: the `isinstance(predicate, Expression)` check is
enforced by the embedding's types, so the typed residue always passes. -/
def Filter.validate (_ : Filter) : Except PyError Unit := .ok ()

/-- `Filter.to_gremlin`. -/
def Filter.to_gremlin (b : Filter) : Except PyError String :=
  match Filter.validate b with
  | .error e => .error e
  | .ok _ => .ok ("filter\x7bit, m -> " ++ b.predicate.gremlin ++ "\x7d")

/-- `Filter.visit_and_update_expressions`: returns `self` (flag `true`)
when the rewritten predicate is the same object, and a fresh `Filter`
otherwise. -/
def Filter.visit_and_update_expressions (b : Filter) (vu : Expr → Expr) : Bool × Filter :=
  let new_predicate := vu b.predicate
  if new_predicate.oid = b.predicate.oid then (true, b) else (false, ⟨new_predicate⟩)

/-- `MarkLocation`. -/
structure MarkLocation where
  location : BaseLocation
deriving DecidableEq, Repr

/-- `MarkLocation.validate`. -/
def MarkLocation.validate (b : MarkLocation) : Except PyError Unit :=
  validate_marked_location b.location

/-- `MarkLocation.to_gremlin`. -/
def MarkLocation.to_gremlin (b : MarkLocation) : Except PyError String :=
  match MarkLocation.validate b with
  | .error e => .error e
  | .ok _ => .ok ("as(" ++ safe_quoted_string b.location.mark_name ++ ")")

/-- `Traverse`: a traversal across one edge. -/
structure Traverse where
  direction : String
  edge_name : String
  optional : Bool
  within_optional_scope : Bool
deriving DecidableEq, Repr

/-- `Traverse.validate` (typed residue: the `isinstance` checks on the
string and bool fields are enforced by the embedding's types). -/
def Traverse.validate (b : Traverse) : Except PyError Unit :=
  match validate_edge_direction b.direction with
  | .error e => .error e
  | .ok _ => validate_safe_string b.edge_name

/-- `Traverse.get_field_name`: the `<direction>_<edge_name>` property name
storing the edge collection. -/
def Traverse.get_field_name (b : Traverse) : String :=
  b.direction ++ "_" ++ b.edge_name

/-- `Traverse.to_gremlin`: the `if self.optional / elif
self.within_optional_scope / else` chain of the source. -/
def Traverse.to_gremlin (b : Traverse) : Except PyError String :=
  match Traverse.validate b with
  | .error e => .error e
  | .ok _ =>
    if b.optional then
      .ok ("ifThenElse\x7bit." ++ b.direction ++ "_" ++ b.edge_name
        ++ " == null\x7d\x7bnull\x7d\x7bit." ++ b.direction ++ "("
        ++ safe_quoted_string b.edge_name ++ ")\x7d")
    else if b.within_optional_scope then
      .ok ("ifThenElse\x7bit == null\x7d\x7bnull\x7d\x7bit." ++ b.direction ++ "("
        ++ safe_quoted_string b.edge_name ++ ")\x7d")
    else
      .ok (b.direction ++ "(" ++ safe_quoted_string b.edge_name ++ ")")

/-- `Recurse`: bounded recursive traversal of one edge. -/
structure Recurse where
  direction : String
  edge_name : String
  depth : Int
  within_optional_scope : Bool
deriving DecidableEq, Repr

/-- `Recurse.validate` (typed residue; the `depth >= 1` check is the
source's own `ValueError`). -/
def Recurse.validate (b : Recurse) : Except PyError Unit :=
  match validate_edge_direction b.direction with
  | .error e => .error e
  | .ok _ =>
    match validate_safe_string b.edge_name with
    | .error e => .error e
    | .ok _ =>
      if 1 ≤ b.depth then .ok ()
      else .error (.valueError ("depth (" ++ toString b.depth ++ ") >= 1 does not hold!"))

/-- Python string repetition `s * n`. -/
def strRepeat (s : String) : Nat → String
  | 0 => ""
  | n + 1 => s ++ strRepeat s n

/-- `Recurse.to_gremlin`: unrolls `depth + 1` traversal paths, merges them
with `copySplit(...).exhaustMerge`, and wraps the whole expression in the
null-propagation guard when inside an optional scope.  Note the edge name
is interpolated with hand-written quotes in the source (`'{edge_name}'`),
mirrored here with `squote`. -/
def Recurse.to_gremlin (b : Recurse) : Except PyError String :=
  match Recurse.validate b with
  | .error e => .error e
  | .ok _ =>
    let recurse_base := "_()"
    let recurse_traversal := "." ++ b.direction ++ "(" ++ squote ++ b.edge_name ++ squote ++ ")"
    let recurse_steps :=
      (List.range (b.depth.toNat + 1)).map (fun i => recurse_base ++ strRepeat recurse_traversal i)
    let recursion_string := "copySplit(" ++ String.intercalate "," recurse_steps ++ ").exhaustMerge"
    if b.within_optional_scope then
      .ok ("ifThenElse\x7bit == null\x7d\x7bnull\x7d\x7bit." ++ recursion_string ++ "\x7d")
    else
      .ok recursion_string

/-- `Backtrack`: return to a previously marked location. -/
structure Backtrack where
  location : BaseLocation
  optional : Bool
deriving DecidableEq, Repr

/-- `Backtrack.validate` (typed residue). -/
def Backtrack.validate (b : Backtrack) : Except PyError Unit :=
  validate_marked_location b.location

/-- `Backtrack.to_gremlin`: `optional(...)` or `back(...)`. -/
def Backtrack.to_gremlin (b : Backtrack) : Except PyError String :=
  match Backtrack.validate b with
  | .error e => .error e
  | .ok _ =>
    .ok ((if b.optional then "optional" else "back")
      ++ "(" ++ safe_quoted_string b.location.mark_name ++ ")")

/-- `Fold` marker block. -/
structure Fold where
  fold_scope_location : FoldScopeLocation
deriving DecidableEq, Repr

/-- `Fold.validate` (typed residue: the `isinstance` check is enforced by
the embedding's types). -/
def Fold.validate (_ : Fold) : Except PyError Unit := .ok ()

/-- `OutputSource.validate`: always valid in isolation. -/
def OutputSource.validate : Except PyError Unit := .ok ()

/-- `Unfold.validate`: always valid in isolation. -/
def Unfold.validate : Except PyError Unit := .ok ()

/-- `EndOptional.validate`: always valid in isolation. -/
def EndOptional.validate : Except PyError Unit := .ok ()

/-- `GlobalOperationsStart.validate`: always valid in isolation. -/
def GlobalOperationsStart.validate : Except PyError Unit := .ok ()

/-! ### Auxiliary definitions used by the statements -/

/-- Substring test on char lists. -/
def listIsInfix (pat : List Char) : List Char → Bool
  | [] => pat.isEmpty
  | c :: rest => pat.isPrefixOf (c :: rest) || listIsInfix pat rest

/-- `pat` occurs somewhere inside `s`. -/
def substrB (pat s : String) : Bool := listIsInfix pat.toList s.toList

/-- Number of (possibly overlapping) occurrence positions of `pat` in a
char list. -/
def countOccurrences (pat : List Char) : List Char → Nat
  | [] => 0
  | c :: rest => (if pat.isPrefixOf (c :: rest) then 1 else 0) + countOccurrences pat rest

/-- Number of occurrence positions of `pat` in `s`. -/
def countOcc (pat s : String) : Nat := countOccurrences pat.toList s.toList

/-- The identifier `ident` appears in `out` only via the quoting helper:
every occurrence of `ident` lies inside an occurrence of
`safe_quoted_string ident` (for non-overlapping identifiers this is
exactly: the two occurrence counts agree). -/
def onlyQuotedOccurrences (ident out : String) : Prop :=
  countOcc ident out = countOcc (safe_quoted_string ident) out

/-- Extract the rendered text of a successful render. -/
def renderOrEmpty : Except PyError String → String
  | .ok s => s
  | .error _ => ""

/-- The edge step of one unrolled Recurse path, following the spec's
description (the directed edge step repeated `i` times per path). -/
def recurse_step (d e : String) : String :=
  "." ++ d ++ "(" ++ squote ++ e ++ squote ++ ")"

/-- The spec's `depth+1` parallel traversal paths of lengths `0..depth`. -/
def recurse_paths (d e : String) (k : Nat) : List String :=
  (List.range (k + 1)).map (fun i => "_()" ++ strRepeat (recurse_step d e) i)

/-- The spec's copy-split-then-merge combination of the unrolled paths. -/
def recurse_merged (d e : String) (k : Nat) : String :=
  "copySplit(" ++ String.intercalate "," (recurse_paths d e k) ++ ").exhaustMerge"

/-- The spec's null-propagation guard for a traversal inside an optional
scope: if the current pipeline element is null, stay null, otherwise
perform `body` on it. -/
def null_propagation_guard (body : String) : String :=
  "ifThenElse\x7bit == null\x7d\x7bnull\x7d\x7bit." ++ body ++ "\x7d"

/-! ### Dynamically-typed construction inputs

Python does not enforce the constructors' type annotations, so the
`isinstance` checks inside the `validate` methods are observable.  `PyVal`
models the dynamically-typed values a caller could pass; the `*_dyn`
validators below are the same source `validate` methods,  executed over
such values (construction runs `validate`, so constructing succeeds
exactly when the dynamic validator returns `.ok`). -/

inductive PyVal where
  | str (s : String)
  | intV (n : Int)
  | boolV (b : Bool)
  | setV (xs : List PyVal)
  | listV (xs : List PyVal)
  | dictV (xs : List (PyVal × PyVal))
  | exprV (e : Expr)
  | locV (l : BaseLocation)
  | foldV (l : FoldScopeLocation)
  | noneV

/-- The Python type name, as it would appear in an error message. -/
def PyVal.typeName : PyVal → String
  | .str _ => "str"
  | .intV _ => "int"
  | .boolV _ => "bool"
  | .setV _ => "set"
  | .listV _ => "list"
  | .dictV _ => "dict"
  | .exprV _ => "Expression"
  | .locV _ => "Location"
  | .foldV _ => "FoldScopeLocation"
  | .noneV => "NoneType"

/-- `isinstance(v, str)`. -/
def PyVal.isStr : PyVal → Bool
  | .str _ => true
  | _ => false

/-- `isinstance(v, bool)`. -/
def PyVal.isBool : PyVal → Bool
  | .boolV _ => true
  | _ => false

/-- `isinstance(v, int)`: in Python, `bool` is a subclass of `int`. -/
def PyVal.isInt : PyVal → Bool
  | .intV _ => true
  | .boolV _ => true
  | _ => false

/-- `isinstance(v, set)`. -/
def PyVal.isSet : PyVal → Bool
  | .setV _ => true
  | _ => false

/-- `isinstance(v, dict)`. -/
def PyVal.isDict : PyVal → Bool
  | .dictV _ => true
  | _ => false

/-- `isinstance(v, Expression)`. -/
def PyVal.isExpr : PyVal → Bool
  | .exprV _ => true
  | _ => false

/-- `isinstance(v, FoldScopeLocation)`. -/
def PyVal.isFoldLoc : PyVal → Bool
  | .foldV _ => true
  | _ => false

/-- The integer value of a Python `int` (a `bool` counts as 1 or 0). -/
def PyVal.asInt : PyVal → Option Int
  | .intV n => some n
  | .boolV b => some (if b then 1 else 0)
  | _ => Option.none

/-- The string payload, when `v` is a `str`. -/
def PyVal.asStr : PyVal → Option String
  | .str s => some s
  | _ => Option.none

/-- Modelled from the spec: `validate_safe_string` applied to a
dynamically-typed value (the helper rejects non-strings as well as unsafe
strings). -/
def validate_safe_string_dyn (v : PyVal) : Except PyError Unit :=
  match v with
  | .str s => validate_safe_string s
  | w => .error (.compilationError ("Expected string, got: " ++ w.typeName))

/-- Modelled from the spec: `validate_edge_direction` applied to a
dynamically-typed value (a non-string is simply not one of the allowed
directions). -/
def validate_edge_direction_dyn (v : PyVal) : Except PyError Unit :=
  match v with
  | .str s => validate_edge_direction s
  | w => .error (.valueError ("Provided edge direction is not valid: " ++ w.typeName))

/-- Modelled from the spec: `validate_marked_location` applied to a
dynamically-typed value. -/
def validate_marked_location_dyn (v : PyVal) : Except PyError Unit :=
  match v with
  | .locV l => validate_marked_location l
  | .foldV _ => .ok ()
  | w => .error (.compilationError ("Cannot mark non-location value: " ++ w.typeName))

/-- `for cls in start_class: validate_safe_string(cls)` over dynamic
set elements. -/
def validate_all_safe_dyn : List PyVal → Except PyError Unit
  | [] => .ok ()
  | v :: rest =>
    match validate_safe_string_dyn v with
    | .error e => .error e
    | .ok _ => validate_all_safe_dyn rest

/-- `QueryRoot.validate` over a dynamically-typed `start_class`. -/
def QueryRoot.validate_dyn (start_class : PyVal) : Except PyError Unit :=
  match start_class with
  | .setV xs =>
    if xs.all PyVal.isStr then validate_all_safe_dyn xs
    else .error (.typeError ("Expected set of string start_class, got: " ++ "set"))
  | v => .error (.typeError ("Expected set of string start_class, got: " ++ v.typeName))

/-- `CoerceType.validate` over a dynamically-typed `target_class`. -/
def CoerceType.validate_dyn (target_class : PyVal) : Except PyError Unit :=
  match target_class with
  | .setV xs =>
    if xs.all PyVal.isStr then validate_all_safe_dyn xs
    else .error (.typeError ("Expected set of string target_class, got: " ++ "set"))
  | v => .error (.typeError ("Expected set of string target_class, got: " ++ v.typeName))

/-- The per-entry checks of `ConstructResult.validate`: each key must be a
safe identifier string and each value an `Expression`. -/
def validate_fields_dyn : List (PyVal × PyVal) → Except PyError Unit
  | [] => .ok ()
  | (k, v) :: rest =>
    match validate_safe_string_dyn k with
    | .error e => .error e
    | .ok _ =>
      match v with
      | .exprV _ => validate_fields_dyn rest
      | w => .error (.typeError
          ("Expected Expression values in the fields dict, got: " ++ w.typeName))

/-- `ConstructResult.validate` over a dynamically-typed `fields`. -/
def ConstructResult.validate_dyn (fields : PyVal) : Except PyError Unit :=
  match fields with
  | .dictV kvs => validate_fields_dyn kvs
  | v => .error (.typeError ("Expected dict fields, got: " ++ v.typeName))

/-- `Filter.validate` over a dynamically-typed `predicate`. -/
def Filter.validate_dyn (predicate : PyVal) : Except PyError Unit :=
  match predicate with
  | .exprV _ => .ok ()
  | v => .error (.typeError ("Expected Expression predicate, got: " ++ v.typeName))

/-- `MarkLocation.validate` over a dynamically-typed `location`. -/
def MarkLocation.validate_dyn (location : PyVal) : Except PyError Unit :=
  validate_marked_location_dyn location

/-- `Traverse.validate` over dynamically-typed field values, in the
source's check order. -/
def Traverse.validate_dyn (direction edge_name optional within_optional_scope : PyVal) :
    Except PyError Unit :=
  match direction with
  | .str d =>
    (match validate_edge_direction d with
      | .error e => .error e
      | .ok _ =>
        match validate_safe_string_dyn edge_name with
        | .error e => .error e
        | .ok _ =>
          if optional.isBool then
            if within_optional_scope.isBool then .ok ()
            else .error (.typeError ("Expected bool within_optional_scope, got: "
              ++ within_optional_scope.typeName))
          else .error (.typeError ("Expected bool optional, got: " ++ optional.typeName)))
  | v => .error (.typeError ("Expected string direction, got: " ++ v.typeName))

/-- `Recurse.validate` over dynamically-typed field values, in the
source's check order (note: it does not pre-check that `direction` is a
string; `depth` accepts any Python `int`, including `bool`). -/
def Recurse.validate_dyn (direction edge_name depth within_optional_scope : PyVal) :
    Except PyError Unit :=
  match validate_edge_direction_dyn direction with
  | .error e => .error e
  | .ok _ =>
    match validate_safe_string_dyn edge_name with
    | .error e => .error e
    | .ok _ =>
      if within_optional_scope.isBool then
        match depth.asInt with
        | some n =>
          if 1 ≤ n then .ok ()
          else .error (.valueError ("depth (" ++ toString n ++ ") >= 1 does not hold!"))
        | Option.none => .error (.typeError ("Expected int depth, got: " ++ depth.typeName))
      else .error (.typeError ("Expected bool within_optional_scope, got: "
        ++ within_optional_scope.typeName))

/-- `Backtrack.validate` over dynamically-typed field values. -/
def Backtrack.validate_dyn (location optional : PyVal) : Except PyError Unit :=
  match validate_marked_location_dyn location with
  | .error e => .error e
  | .ok _ =>
    if optional.isBool then .ok ()
    else .error (.typeError ("Expected bool optional, got: " ++ optional.typeName))

/-- `Fold.validate` over a dynamically-typed `fold_scope_location`. -/
def Fold.validate_dyn (fold_scope_location : PyVal) : Except PyError Unit :=
  match fold_scope_location with
  | .foldV _ => .ok ()
  | v => .error (.typeError
      ("Expected a FoldScopeLocation for fold_scope_location, got: " ++ v.typeName))

/-! ### String and list infrastructure lemmas -/

theorem string_toList_append (a b : String) : (a ++ b).toList = a.toList ++ b.toList := rfl

theorem string_length_append (a b : String) : (a ++ b).length = a.length + b.length := by
  cases a with
  | mk da =>
    cases b with
    | mk db => simp [String.length, String.instAppend, String.append]

theorem isPrefixOf_append (pat l r : List Char) (h : pat.isPrefixOf l = true) :
    pat.isPrefixOf (l ++ r) = true := by
  induction pat generalizing l with
  | nil => simp [List.isPrefixOf]
  | cons p ps ih =>
    cases l with
    | nil => simp [List.isPrefixOf] at h
    | cons a as =>
      simp only [List.cons_append, List.isPrefixOf, Bool.and_eq_true, beq_iff_eq] at h ⊢
      exact ⟨h.1, ih as h.2⟩

theorem listIsInfix_append_right (pat l r : List Char) (h : listIsInfix pat l = true) :
    listIsInfix pat (l ++ r) = true := by
  induction l with
  | nil =>
    simp only [listIsInfix, List.isEmpty_iff] at h
    subst h
    cases r with
    | nil => rfl
    | cons c cs => simp [listIsInfix, List.isPrefixOf]
  | cons c cs ih =>
    simp only [listIsInfix, Bool.or_eq_true] at h
    rcases h with h | h
    · have := isPrefixOf_append pat (c :: cs) r h
      simp [listIsInfix, List.cons_append] at this ⊢
      exact Or.inl this
    · simp only [List.cons_append, listIsInfix, Bool.or_eq_true]
      exact Or.inr (ih h)

/-- If `pat` occurs in `b`, it occurs in `b ++ c`. -/
theorem substrB_append_right (pat b c : String) (h : substrB pat b = true) :
    substrB pat (b ++ c) = true := by
  simpa [substrB, string_toList_append] using
    listIsInfix_append_right pat.toList b.toList c.toList h

/-! ### The string order used by `sorted` -/

theorem lexLe_total (x y : List Char) : lexLe x y = true ∨ lexLe y x = true := by
  induction x generalizing y with
  | nil => exact Or.inl rfl
  | cons a as ih =>
    cases y with
    | nil => exact Or.inr rfl
    | cons b bs =>
      rcases lt_trichotomy a b with h | h | h
      · exact Or.inl (by simp [lexLe, h])
      · subst h
        rcases ih bs with h2 | h2
        · exact Or.inl (by simp [lexLe, h2])
        · exact Or.inr (by simp [lexLe, h2])
      · exact Or.inr (by simp [lexLe, h])

theorem lexLe_trans (x y z : List Char) (h1 : lexLe x y = true) (h2 : lexLe y z = true) :
    lexLe x z = true := by
  induction x generalizing y z with
  | nil => rfl
  | cons a as ih =>
    cases y with
    | nil => simp [lexLe] at h1
    | cons b bs =>
      cases z with
      | nil => simp [lexLe] at h2
      | cons c cs =>
        by_cases hab : a < b
        · by_cases hbc : b < c
          · simp [lexLe, lt_trans hab hbc]
          · by_cases hcb : c < b
            · simp [lexLe, hbc, hcb] at h2
            · have hbceq : b = c := le_antisymm (not_lt.mp hcb) (not_lt.mp hbc)
              subst hbceq
              simp [lexLe, hab]
        · by_cases hba : b < a
          · simp [lexLe, hab, hba] at h1
          · have habeq : a = b := le_antisymm (not_lt.mp hba) (not_lt.mp hab)
            subst habeq
            simp only [lexLe, lt_irrefl, if_false] at h1
            by_cases hac : a < c
            · simp [lexLe, hac]
            · by_cases hca : c < a
              · simp [lexLe, hac, hca] at h2
              · have haceq : a = c := le_antisymm (not_lt.mp hca) (not_lt.mp hac)
                subst haceq
                simp only [lexLe, lt_irrefl, if_false] at h2 ⊢
                exact ih bs cs h1 h2

theorem lexLe_antisymm (x y : List Char) (h1 : lexLe x y = true) (h2 : lexLe y x = true) :
    x = y := by
  induction x generalizing y with
  | nil =>
    cases y with
    | nil => rfl
    | cons b bs => simp [lexLe] at h2
  | cons a as ih =>
    cases y with
    | nil => simp [lexLe] at h1
    | cons b bs =>
      by_cases hab : a < b
      · simp [lexLe, hab, lt_asymm hab] at h2
      · by_cases hba : b < a
        · simp [lexLe, hab, hba] at h1
        · have habeq : a = b := le_antisymm (not_lt.mp hba) (not_lt.mp hab)
          subst habeq
          simp only [lexLe, lt_irrefl, if_false] at h1 h2
          exact congrArg (a :: ·) (ih bs h1 h2)

theorem strLe_isTotal : IsTotal String strLe :=
  ⟨fun a b => lexLe_total a.toList b.toList⟩

theorem strLe_isTrans : IsTrans String strLe :=
  ⟨fun a b c h1 h2 => lexLe_trans a.toList b.toList c.toList h1 h2⟩

theorem strLe_isAntisymm : IsAntisymm String strLe :=
  ⟨fun a b h1 h2 => by
    have := lexLe_antisymm a.toList b.toList h1 h2
    exact String.ext (by simpa [String.toList] using this)⟩

theorem sortStrings_sorted (l : List String) : List.Sorted strLe (sortStrings l) := by
  haveI := strLe_isTotal
  haveI := strLe_isTrans
  exact List.sorted_insertionSort strLe l

theorem sortStrings_perm (l : List String) : (sortStrings l).Perm l :=
  List.perm_insertionSort strLe l

theorem sortStrings_eq_of_perm {l₁ l₂ : List String} (h : l₁.Perm l₂) :
    sortStrings l₁ = sortStrings l₂ := by
  haveI := strLe_isAntisymm
  refine List.eq_of_perm_of_sorted ?_ (sortStrings_sorted l₁) (sortStrings_sorted l₂)
  exact ((sortStrings_perm l₁).trans h).trans (sortStrings_perm l₂).symm

/-! ### Dictionary lookup lemmas -/

theorem dictLookup_perm (k : String) {l₁ l₂ : List (String × Expr)} (hp : l₁.Perm l₂) :
    (l₁.map Prod.fst).Nodup → dictLookup k l₁ = dictLookup k l₂ := by
  induction hp with
  | nil => intro _; rfl
  | cons x h ih =>
    intro hn
    simp only [List.map_cons, List.nodup_cons] at hn
    obtain ⟨a, v⟩ := x
    simp [dictLookup, ih hn.2]
  | swap x y l =>
    intro hn
    obtain ⟨a, v⟩ := x
    obtain ⟨b, w⟩ := y
    simp only [List.map_cons, List.nodup_cons, List.mem_cons] at hn
    have hne : b ≠ a := fun h => hn.1 (Or.inl h)
    by_cases h1 : k = b
    · by_cases h2 : k = a
      · exact absurd (h1.symm.trans h2) hne
      · simp [dictLookup, h1, h2, hne]
    · by_cases h2 : k = a
      · simp [dictLookup, h1, h2, Ne.symm hne]
      · simp [dictLookup, h1, h2]
  | trans h₁ h₂ ih₁ ih₂ =>
    intro hn
    have hn₂ := ((h₁.map Prod.fst).nodup_iff).mp hn
    rw [ih₁ hn, ih₂ hn₂]

theorem mem_unique_of_nodup_keys {l : List (String × Expr)} {k : String} {v w : Expr}
    (hn : (l.map Prod.fst).Nodup) (h1 : (k, v) ∈ l) (h2 : (k, w) ∈ l) : v = w := by
  induction l with
  | nil => cases h1
  | cons kv rest ih =>
    simp only [List.map_cons, List.nodup_cons] at hn
    rcases List.mem_cons.mp h1 with h1 | h1 <;> rcases List.mem_cons.mp h2 with h2 | h2
    · rw [← h2] at h1
      exact congrArg Prod.snd h1
    · rw [← h1] at hn
      exact absurd (List.mem_map_of_mem Prod.fst h2) hn.1
    · rw [← h2] at hn
      exact absurd (List.mem_map_of_mem Prod.fst h1) hn.1
    · exact ih hn.2 h1 h2

theorem dictLookup_eq_some_of_mem {l : List (String × Expr)} {k : String} {v : Expr}
    (hn : (l.map Prod.fst).Nodup) (hm : (k, v) ∈ l) : dictLookup k l = some v := by
  induction l with
  | nil => cases hm
  | cons kv rest ih =>
    obtain ⟨a, w⟩ := kv
    simp only [List.map_cons, List.nodup_cons] at hn
    rcases List.mem_cons.mp hm with h | h
    · obtain ⟨h1, h2⟩ := Prod.mk.injEq _ _ _ _ ▸ h
      simp [dictLookup, h1.symm, h2]
    · have hka : k ≠ a := by
        intro he
        exact hn.1 (he ▸ List.mem_map_of_mem Prod.fst h)
      simp [dictLookup, hka, ih hn.2 h]

theorem dictLookup_eq_none_iff {l : List (String × Expr)} {k : String} :
    dictLookup k l = Option.none ↔ k ∉ l.map Prod.fst := by
  induction l with
  | nil => simp [dictLookup]
  | cons kv rest ih =>
    obtain ⟨a, w⟩ := kv
    by_cases hka : k = a
    · subst hka
      simp [dictLookup]
    · simp [dictLookup, hka, ih]

theorem dictLookup_map_keypreserving {l : List (String × Expr)} {k : String} {v : Expr}
    (g : String × Expr → String × Expr) (hg : ∀ kv, (g kv).1 = kv.1)
    (hn : (l.map Prod.fst).Nodup) (hm : (k, v) ∈ l) :
    dictLookup k (l.map g) = some (g (k, v)).2 := by
  induction l with
  | nil => cases hm
  | cons kv rest ih =>
    simp only [List.map_cons, List.nodup_cons] at hn
    rcases List.mem_cons.mp hm with h | h
    · rw [← h]
      simp [dictLookup, hg (k, v)]
    · have hka : k ≠ kv.1 := by
        intro he
        exact hn.1 (he ▸ List.mem_map_of_mem Prod.fst h)
      simp only [List.map_cons, dictLookup, hg kv, if_neg hka]
      exact ih hn.2 h

theorem map_keypreserving_keys (g : String × Expr → String × Expr)
    (hg : ∀ kv, (g kv).1 = kv.1) (l : List (String × Expr)) :
    (l.map g).map Prod.fst = l.map Prod.fst := by
  induction l with
  | nil => rfl
  | cons kv rest ih => simp [hg kv, ih]

/-! ### Validation helper lemmas -/

theorem validate_all_safe_ok {l : List String} (h : ∀ s ∈ l, is_safe_string s = true) :
    validate_all_safe l = .ok () := by
  induction l with
  | nil => rfl
  | cons s rest ih =>
    have hs := h s (List.mem_cons_self s rest)
    simp only [validate_all_safe, validate_safe_string, hs, if_true]
    exact ih (fun t ht => h t (List.mem_cons_of_mem s ht))

theorem validate_result_fields_ok {l : List (String × Expr)}
    (h : ∀ kv ∈ l, is_safe_string kv.1 = true) :
    validate_result_fields l = .ok () := by
  induction l with
  | nil => rfl
  | cons kv rest ih =>
    obtain ⟨k, v⟩ := kv
    have hs := h (k, v) (List.mem_cons_self _ rest)
    simp only [validate_result_fields, validate_safe_string, hs, if_true]
    exact ih (fun t ht => h t (List.mem_cons_of_mem _ ht))

/-! ### Claim theorems -/

/-- C4: For every `CoerceType` block, regardless of its `target_class`
contents, `to_gremlin` always raises the fatal `AssertionError` (the
spec's `UnsupportedConstruct`), a kind distinct from the ordinary
validation errors (the spec's `InvalidBlock`), and never produces text. -/
theorem C4_coerce_type_render_raises (b : CoerceType) :
    b.to_gremlin = .error (.assertionError
      ("CoerceType blocks must be appropriately lowered before being "
        ++ "transformed into Gremlin code. This function should not be used."))
    ∧ PyError.isValidation (.assertionError
      ("CoerceType blocks must be appropriately lowered before being "
        ++ "transformed into Gremlin code. This function should not be used.")) = false :=
  ⟨rfl, rfl⟩

theorem construct_new_fields_empty_iff (fields : List (String × Expr)) (vu : Expr → Expr) :
    (fields.filterMap (fun kv =>
      if (vu kv.2).oid = kv.2.oid then Option.none else some (kv.1, vu kv.2))).isEmpty = true
    ↔ ∀ kv ∈ fields, (vu kv.2).oid = kv.2.oid := by
  rw [List.isEmpty_iff, List.filterMap_eq_nil_iff]
  constructor
  · intro h kv hkv
    have := h kv hkv
    by_contra hne
    simp [hne] at this
  · intro h kv hkv
    simp [h kv hkv]

/-- The merge `dict(self.fields, **new_fields)` keeps the original keys
in their original order. -/
theorem merged_keys (nf fields : List (String × Expr)) :
    ((fields.map (fun kv =>
      match dictLookup kv.1 nf with
      | some nv => (kv.1, nv)
      | Option.none => kv)).map Prod.fst) = fields.map Prod.fst := by
  apply map_keypreserving_keys
  intro kv
  show (match dictLookup kv.1 nf with
    | some nv => (kv.1, nv)
    | Option.none => kv).1 = kv.1
  cases dictLookup kv.1 nf <;> rfl

/-- A key untouched by `new_fields` keeps its original value in the
merged dict. -/
theorem merged_lookup {nf fields : List (String × Expr)} {k : String} {v : Expr}
    (hn : (fields.map Prod.fst).Nodup) (hm : (k, v) ∈ fields)
    (hnone : dictLookup k nf = Option.none) :
    dictLookup k (fields.map (fun kv =>
      match dictLookup kv.1 nf with
      | some nv => (kv.1, nv)
      | Option.none => kv)) = some v := by
  have hg : ∀ kv : String × Expr,
      ((fun kv : String × Expr =>
        match dictLookup kv.1 nf with
        | some nv => (kv.1, nv)
        | Option.none => kv) kv).1 = kv.1 := by
    intro kv
    show (match dictLookup kv.1 nf with
      | some nv => (kv.1, nv)
      | Option.none => kv).1 = kv.1
    cases dictLookup kv.1 nf <;> rfl
  rw [dictLookup_map_keypreserving _ hg hn hm]
  simp only [hnone]

/-- A key whose expression the rewrite left unchanged does not occur in
`new_fields`. -/
theorem new_fields_lookup_none {fields : List (String × Expr)} (vu : Expr → Expr)
    {k : String} {v : Expr} (hn : (fields.map Prod.fst).Nodup) (hm : (k, v) ∈ fields)
    (hunch : (vu v).oid = v.oid) :
    dictLookup k (fields.filterMap (fun kv =>
      if (vu kv.2).oid = kv.2.oid then Option.none else some (kv.1, vu kv.2)))
      = Option.none := by
  apply dictLookup_eq_none_iff.mpr
  intro hmem
  obtain ⟨p, hp, hpk⟩ := List.mem_map.mp hmem
  obtain ⟨kv', hkv', heq⟩ := List.mem_filterMap.mp hp
  by_cases hch : (vu kv'.2).oid = kv'.2.oid
  · rw [if_pos hch] at heq
    cases heq
  · rw [if_neg hch] at heq
    have hpe : (kv'.1, vu kv'.2) = p := Option.some.inj heq
    have hp1 : p.1 = kv'.1 := by rw [← hpe]
    have hk' : kv'.1 = k := by rw [← hp1, hpk]
    have hmem' : (k, kv'.2) ∈ fields := by
      have hkv'' : kv' = (k, kv'.2) := by rw [← hk']
      rwa [hkv''] at hkv'
    have hvv : kv'.2 = v := mem_unique_of_nodup_keys hn hmem' hm
    rw [hvv] at hch
    exact hch hunch

/-- C7: For every `Filter` or `ConstructResult` block and every
expression-rewrite function, `visit_and_update_expressions` returns the
same instance (flag `true`) exactly when the rewrite left every contained
expression unchanged by reference, returning `self` in that case, and a
freshly constructed block otherwise. -/
theorem C7_visit_identity_short_circuit :
    (∀ (b : ConstructResult) (vu : Expr → Expr),
      ((b.visit_and_update_expressions vu).1 = true ↔
        ∀ kv ∈ b.fields, (vu kv.2).oid = kv.2.oid)
      ∧ ((b.visit_and_update_expressions vu).1 = true →
          (b.visit_and_update_expressions vu).2 = b))
    ∧ (∀ (f : Filter) (vu : Expr → Expr),
      ((f.visit_and_update_expressions vu).1 = true ↔
        (vu f.predicate).oid = f.predicate.oid)
      ∧ ((f.visit_and_update_expressions vu).1 = true →
          (f.visit_and_update_expressions vu).2 = f)
      ∧ ((f.visit_and_update_expressions vu).1 = false →
          (f.visit_and_update_expressions vu).2 = Filter.mk (vu f.predicate))) := by
  constructor
  · intro b vu
    by_cases hE : (b.fields.filterMap (fun kv =>
        if (vu kv.2).oid = kv.2.oid then Option.none else some (kv.1, vu kv.2))).isEmpty = true
    · constructor
      · rw [iff_true_intro ((construct_new_fields_empty_iff b.fields vu).mp hE)]
        simp [ConstructResult.visit_and_update_expressions, hE]
      · intro _
        simp [ConstructResult.visit_and_update_expressions, hE]
    · constructor
      · constructor
        · intro h
          simp only [ConstructResult.visit_and_update_expressions, hE, if_neg,
            Bool.false_eq_true] at h
          exact absurd h (by simp [if_neg hE])
        · intro h
          exact absurd ((construct_new_fields_empty_iff b.fields vu).mpr h) hE
      · intro h
        exact absurd h (by simp [ConstructResult.visit_and_update_expressions, if_neg hE])
  · intro f vu
    by_cases h : (vu f.predicate).oid = f.predicate.oid
    · refine ⟨by simp [Filter.visit_and_update_expressions, h], ?_, ?_⟩
      · intro _
        simp [Filter.visit_and_update_expressions, h]
      · intro hc
        simp [Filter.visit_and_update_expressions, h] at hc
    · refine ⟨by simp [Filter.visit_and_update_expressions, h], ?_, ?_⟩
      · intro hc
        simp [Filter.visit_and_update_expressions, h] at hc
      · intro _
        simp [Filter.visit_and_update_expressions, h]

/-- Witness for C7 at a concrete block and the identity rewrite. -/
theorem C7_witness :
    ((ConstructResult.mk [("x", ⟨5, "P"⟩)]).visit_and_update_expressions (fun e => e)).1 = true
    ∧ ((ConstructResult.mk [("x", ⟨5, "P"⟩)]).visit_and_update_expressions (fun e => e)).2
        = ConstructResult.mk [("x", ⟨5, "P"⟩)] := by
  have h := C7_visit_identity_short_circuit.1 (ConstructResult.mk [("x", ⟨5, "P"⟩)]) (fun e => e)
  have h1 := (h.1).mpr (by intro kv _; rfl)
  exact ⟨h1, h.2 h1⟩

/-- C10: For every `ConstructResult` and every expression-rewrite
function, the rewritten block has exactly the original output-field keys
(in order), and every field whose expression the rewrite left unchanged
by reference still maps to the identical expression object. -/
theorem C10_visit_frame (fields : List (String × Expr)) (vu : Expr → Expr)
    (hn : (fields.map Prod.fst).Nodup) :
    (((ConstructResult.mk fields).visit_and_update_expressions vu).2.fields.map Prod.fst
      = fields.map Prod.fst)
    ∧ ∀ kv ∈ fields, (vu kv.2).oid = kv.2.oid →
      dictLookup kv.1 ((ConstructResult.mk fields).visit_and_update_expressions vu).2.fields
        = some kv.2 := by
  by_cases hE : (fields.filterMap (fun kv =>
      if (vu kv.2).oid = kv.2.oid then Option.none else some (kv.1, vu kv.2))).isEmpty = true
  · constructor
    · simp [ConstructResult.visit_and_update_expressions, hE]
    · intro kv hkv _
      simp only [ConstructResult.visit_and_update_expressions, hE, if_true]
      obtain ⟨k, v⟩ := kv
      exact dictLookup_eq_some_of_mem hn hkv
  · constructor
    · simp only [ConstructResult.visit_and_update_expressions, if_neg hE]
      exact merged_keys _ fields
    · intro kv hkv hunch
      obtain ⟨k, v⟩ := kv
      simp only [ConstructResult.visit_and_update_expressions, if_neg hE]
      exact merged_lookup hn hkv (new_fields_lookup_none vu hn hkv hunch)

/-- Witness for C10 at a concrete block and the identity rewrite. -/
theorem C10_witness :
    dictLookup "a"
      (((ConstructResult.mk [("a", ⟨1, "A"⟩)]).visit_and_update_expressions (fun e => e)).2.fields)
      = some ⟨1, "A"⟩ :=
  (C10_visit_frame [("a", ⟨1, "A"⟩)] (fun e => e) (by decide)).2
    ("a", ⟨1, "A"⟩) (by simp) rfl

/-- C1 counterexample: on the valid Traverse block
`Traverse("out", "Foo", optional=True, within_optional_scope=True)` the
rendering is identical to the optional-only rendering, so it is not
distinct from it and does not compose an additional null-element guard. -/
theorem C1_counterexample :
    Traverse.to_gremlin ⟨"out", "Foo", true, true⟩
      = Traverse.to_gremlin ⟨"out", "Foo", true, false⟩ := rfl

/-- C1 (amended): when both `optional` and `within_optional_scope` are
set, `within_optional_scope` is ignored: the rendering equals the
optional-only rendering (edge-existence guard only), though it still
differs from the within-optional-scope-only rendering. -/
theorem C1_both_flags_collapse (d e : String)
    (hd : d ∈ ALLOWED_EDGE_DIRECTIONS) (he : is_safe_string e = true) :
    Traverse.to_gremlin ⟨d, e, true, true⟩ = Traverse.to_gremlin ⟨d, e, true, false⟩
    ∧ Traverse.to_gremlin ⟨d, e, true, true⟩ ≠ Traverse.to_gremlin ⟨d, e, false, true⟩ := by
  have hdir : validate_edge_direction d = .ok () := by
    simp [validate_edge_direction, hd]
  have hsafe : validate_safe_string e = .ok () := by
    simp [validate_safe_string, he]
  have hval : ∀ o w : Bool, Traverse.validate ⟨d, e, o, w⟩ = .ok () := by
    intro o w
    simp [Traverse.validate, hdir, hsafe]
  constructor
  · rfl
  · intro hcontra
    simp only [Traverse.to_gremlin, hval] at hcontra
    simp only [Bool.false_eq_true, if_true, if_false, ite_true, ite_false,
      Except.ok.injEq] at hcontra
    have hlen := congrArg String.length hcontra
    simp only [string_length_append, safe_quoted_string, squote] at hlen
    have e1 : ("ifThenElse\x7bit." : String).length = 14 := rfl
    have e2 : ("_" : String).length = 1 := rfl
    have e3 : (" == null\x7d\x7bnull\x7d\x7bit." : String).length = 19 := rfl
    have e4 : ("(" : String).length = 1 := rfl
    have e5 : (")\x7d" : String).length = 2 := rfl
    have e6 : ("ifThenElse\x7bit == null\x7d\x7bnull\x7d\x7bit." : String).length = 32 := rfl
    have e7 : (String.singleton (Char.ofNat 39)).length = 1 := rfl
    omega

/-- Witness for C1 at the concrete block of the counterexample. -/
theorem C1_witness :
    ("out" ∈ ALLOWED_EDGE_DIRECTIONS ∧ is_safe_string "Foo" = true)
    ∧ (Traverse.to_gremlin ⟨"out", "Foo", true, true⟩
        = Traverse.to_gremlin ⟨"out", "Foo", true, false⟩
      ∧ Traverse.to_gremlin ⟨"out", "Foo", true, true⟩
        ≠ Traverse.to_gremlin ⟨"out", "Foo", false, true⟩) :=
  ⟨⟨by decide, by decide⟩, C1_both_flags_collapse "out" "Foo" (by decide) (by decide)⟩

/-- C8: For a valid Traverse with both flags off, rendering yields the
plain directed-edge fragment; `get_field_name()` is exactly
`<direction>_<edge_name>`; and with `optional=True` the rendering is a
null-guarded fragment whose guard first reads the property named by
`get_field_name()`. -/
theorem C8_traverse_rendering (d e : String)
    (hd : d ∈ ALLOWED_EDGE_DIRECTIONS) (he : is_safe_string e = true) :
    Traverse.to_gremlin ⟨d, e, false, false⟩ = .ok (d ++ "(" ++ safe_quoted_string e ++ ")")
    ∧ Traverse.get_field_name ⟨d, e, true, false⟩ = d ++ "_" ++ e
    ∧ Traverse.to_gremlin ⟨d, e, true, false⟩ =
        .ok ("ifThenElse\x7bit." ++ Traverse.get_field_name ⟨d, e, true, false⟩
          ++ " == null\x7d\x7bnull\x7d\x7bit." ++ d ++ "(" ++ safe_quoted_string e ++ ")\x7d") := by
  have hdir : validate_edge_direction d = .ok () := by simp [validate_edge_direction, hd]
  have hsafe : validate_safe_string e = .ok () := by simp [validate_safe_string, he]
  have hval : ∀ o w : Bool, Traverse.validate ⟨d, e, o, w⟩ = .ok () := by
    intro o w
    simp [Traverse.validate, hdir, hsafe]
  refine ⟨?_, rfl, ?_⟩
  · simp [Traverse.to_gremlin, hval]
  · simp [Traverse.to_gremlin, hval, Traverse.get_field_name, String.append_assoc]

/-- Witness for C8 at the spec's own example `out('Foo')`. -/
theorem C8_witness :
    ("out" ∈ ALLOWED_EDGE_DIRECTIONS ∧ is_safe_string "Foo" = true)
    ∧ (Traverse.to_gremlin ⟨"out", "Foo", false, false⟩
        = .ok ("out" ++ "(" ++ safe_quoted_string "Foo" ++ ")")
      ∧ Traverse.get_field_name ⟨"out", "Foo", true, false⟩ = "out" ++ "_" ++ "Foo"
      ∧ Traverse.to_gremlin ⟨"out", "Foo", true, false⟩ =
          .ok ("ifThenElse\x7bit." ++ Traverse.get_field_name ⟨"out", "Foo", true, false⟩
            ++ " == null\x7d\x7bnull\x7d\x7bit." ++ "out" ++ "("
            ++ safe_quoted_string "Foo" ++ ")\x7d")) :=
  ⟨⟨by decide, by decide⟩, C8_traverse_rendering "out" "Foo" (by decide) (by decide)⟩

/-- A valid ConstructResult renders identically under any reordering of
its fields dict: the renderer sorts keys and looks each key up. -/
theorem construct_result_perm_render (f₁ f₂ : List (String × Expr))
    (hn : (f₁.map Prod.fst).Nodup) (hp : f₁.Perm f₂)
    (hs : ∀ kv ∈ f₁, is_safe_string kv.1 = true) :
    ConstructResult.to_gremlin ⟨f₁⟩ = ConstructResult.to_gremlin ⟨f₂⟩ := by
  have hs₂ : ∀ kv ∈ f₂, is_safe_string kv.1 = true := fun kv h => hs kv (hp.mem_iff.mpr h)
  have hv₁ : validate_result_fields f₁ = .ok () := validate_result_fields_ok hs
  have hv₂ : validate_result_fields f₂ = .ok () := validate_result_fields_ok hs₂
  have hkeys : sortStrings (f₁.map Prod.fst) = sortStrings (f₂.map Prod.fst) :=
    sortStrings_eq_of_perm (hp.map Prod.fst)
  have hfun : (fun key => key ++ ": " ++ (match dictLookup key f₁ with
      | some e => e.gremlin
      | Option.none => "")) = (fun key => key ++ ": " ++ (match dictLookup key f₂ with
      | some e => e.gremlin
      | Option.none => "")) := by
    funext key
    rw [dictLookup_perm key hp hn]
  simp only [ConstructResult.to_gremlin, ConstructResult.validate, hv₁, hv₂]
  rw [hkeys, hfun]

/-- C6: A valid ConstructResult lists its field assignments in
lexicographically sorted key order, independently of the order of the
fields mapping; in particular `{"b": XB, "a": YA}` renders `a` before
`b`. -/
theorem C6_construct_result_sorted_fields :
    (∀ f₁ f₂ : List (String × Expr), (f₁.map Prod.fst).Nodup → f₁.Perm f₂ →
      (∀ kv ∈ f₁, is_safe_string kv.1 = true) →
      ConstructResult.to_gremlin ⟨f₁⟩ = ConstructResult.to_gremlin ⟨f₂⟩)
    ∧ (∀ l : List String, List.Sorted strLe (sortStrings l))
    ∧ ConstructResult.to_gremlin ⟨[("b", ⟨0, "XB"⟩), ("a", ⟨1, "YA"⟩)]⟩
        = .ok ("transform\x7bit, m -> new com.orientechnologies.orient.core.record.impl.ODocument([ a: YA, b: XB ])\x7d") :=
  ⟨construct_result_perm_render, sortStrings_sorted, by decide⟩

/-- Witness for C6: the two orderings of the same fields dict render the
same text. -/
theorem C6_witness :
    ConstructResult.to_gremlin ⟨[("b", ⟨0, "XB"⟩), ("a", ⟨1, "YA"⟩)]⟩
      = ConstructResult.to_gremlin ⟨[("a", ⟨1, "YA"⟩), ("b", ⟨0, "XB"⟩)]⟩ :=
  C6_construct_result_sorted_fields.1 [("b", ⟨0, "XB"⟩), ("a", ⟨1, "YA"⟩)]
    [("a", ⟨1, "YA"⟩), ("b", ⟨0, "XB"⟩)] (by decide)
    (List.Perm.swap ("a", Expr.mk 1 "YA") ("b", Expr.mk 0 "XB") []) (by decide)

/-- C9 counterexample: two valid QueryRoot blocks whose `start_class`
sets are equal — the element lists are permutations of one another, i.e.
the same two-element set in its two possible iteration orders — render
different text, because the renderer follows set iteration order. -/
theorem C9_counterexample :
    (["A", "B"].Perm ["B", "A"])
    ∧ QueryRoot.to_gremlin ⟨["A", "B"]⟩ ≠ QueryRoot.to_gremlin ⟨["B", "A"]⟩ :=
  ⟨List.Perm.swap "B" "A" [], by decide⟩

/-- C9 (amended): rendering is pure and deterministic as a function of
the block's state including container iteration order; blocks with
set-equal state render identically whenever the `start_class` set has a
single element (and ConstructResult renders identically under any
reordering of its fields), but a multi-element QueryRoot's text follows
the set's iteration order. -/
theorem C9_render_determinism :
    (∀ b₁ b₂ : QueryRoot, b₁.start_class.Perm b₂.start_class →
      b₁.start_class.length = 1 → b₁.to_gremlin = b₂.to_gremlin)
    ∧ (∀ f₁ f₂ : List (String × Expr), (f₁.map Prod.fst).Nodup → f₁.Perm f₂ →
      (∀ kv ∈ f₁, is_safe_string kv.1 = true) →
      ConstructResult.to_gremlin ⟨f₁⟩ = ConstructResult.to_gremlin ⟨f₂⟩) := by
  constructor
  · intro b₁ b₂ hp hl
    obtain ⟨a, ha⟩ := List.length_eq_one.mp hl
    have h₂ : b₂.start_class = [a] := by
      rw [ha] at hp
      exact (List.singleton_perm.mp hp).symm
    have hb : b₁ = b₂ := by
      cases b₁
      cases b₂
      simp_all
    rw [hb]
  · intro f₁ f₂ hn hp hs
    exact construct_result_perm_render f₁ f₂ hn hp hs

/-- Witness for C9: a singleton QueryRoot and a reordered
ConstructResult. -/
theorem C9_witness :
    QueryRoot.to_gremlin ⟨["A"]⟩ = QueryRoot.to_gremlin ⟨["A"]⟩
    ∧ ConstructResult.to_gremlin ⟨[("q", ⟨2, "Q"⟩), ("p", ⟨3, "P"⟩)]⟩
        = ConstructResult.to_gremlin ⟨[("p", ⟨3, "P"⟩), ("q", ⟨2, "Q"⟩)]⟩ :=
  ⟨C9_render_determinism.1 ⟨["A"]⟩ ⟨["A"]⟩ (List.Perm.refl _) rfl,
    C9_render_determinism.2 [("q", ⟨2, "Q"⟩), ("p", ⟨3, "P"⟩)]
      [("p", ⟨3, "P"⟩), ("q", ⟨2, "Q"⟩)] (by decide)
      (List.Perm.swap ("p", Expr.mk 3 "P") ("q", Expr.mk 2 "Q") []) (by decide)⟩

/-- C5: A valid Recurse of depth `n` renders exactly `n+1` parallel
traversal paths, path `i` repeating the directed edge step `i` times,
merged by `copySplit(...).exhaustMerge`; with
`within_optional_scope=True` the whole unrolled expression is wrapped in
the same null-propagation guard used for a Traverse inside an optional
scope. -/
theorem C5_recurse_unrolling (d e : String) (n : Int)
    (hd : d ∈ ALLOWED_EDGE_DIRECTIONS) (he : is_safe_string e = true) (hn : 1 ≤ n) :
    Recurse.to_gremlin ⟨d, e, n, false⟩ = .ok (recurse_merged d e n.toNat)
    ∧ (recurse_paths d e n.toNat).length = n.toNat + 1
    ∧ (∀ i : Nat, ∀ h : i < (recurse_paths d e n.toNat).length,
        (recurse_paths d e n.toNat).get ⟨i, h⟩ = "_()" ++ strRepeat (recurse_step d e) i)
    ∧ Recurse.to_gremlin ⟨d, e, n, true⟩
        = .ok (null_propagation_guard (recurse_merged d e n.toNat))
    ∧ Traverse.to_gremlin ⟨d, e, false, true⟩
        = .ok (null_propagation_guard (d ++ "(" ++ safe_quoted_string e ++ ")")) := by
  have hdir : validate_edge_direction d = .ok () := by simp [validate_edge_direction, hd]
  have hsafe : validate_safe_string e = .ok () := by simp [validate_safe_string, he]
  have hvalR : ∀ w : Bool, Recurse.validate ⟨d, e, n, w⟩ = .ok () := by
    intro w
    simp [Recurse.validate, hdir, hsafe, hn]
  have hvalT : Traverse.validate ⟨d, e, false, true⟩ = .ok () := by
    simp [Traverse.validate, hdir, hsafe]
  refine ⟨?_, ?_, ?_, ?_, ?_⟩
  · simp [Recurse.to_gremlin, hvalR, recurse_merged, recurse_paths, recurse_step]
  · simp [recurse_paths]
  · intro i h
    rw [List.get_eq_getElem]
    simp [recurse_paths]
  · simp [Recurse.to_gremlin, hvalR, null_propagation_guard, recurse_merged,
      recurse_paths, recurse_step]
  · simp only [Traverse.to_gremlin, hvalT, Bool.false_eq_true, if_false, ite_false,
      if_true, ite_true, null_propagation_guard, safe_quoted_string, String.append_assoc]
    rw [show ((")" : String) ++ "\x7d") = ")\x7d" from rfl]

/-- Witness for C5 at the spec's own example
`Recurse(direction="in", edge_name="E", depth=2)`. -/
theorem C5_witness :
    ("in" ∈ ALLOWED_EDGE_DIRECTIONS ∧ is_safe_string "E" = true ∧ (1 : Int) ≤ 2)
    ∧ (Recurse.to_gremlin ⟨"in", "E", 2, false⟩ = .ok (recurse_merged "in" "E" (2 : Int).toNat)
      ∧ (recurse_paths "in" "E" (2 : Int).toNat).length = (2 : Int).toNat + 1
      ∧ (∀ i : Nat, ∀ h : i < (recurse_paths "in" "E" (2 : Int).toNat).length,
          (recurse_paths "in" "E" (2 : Int).toNat).get ⟨i, h⟩
            = "_()" ++ strRepeat (recurse_step "in" "E") i)
      ∧ Recurse.to_gremlin ⟨"in", "E", 2, true⟩
          = .ok (null_propagation_guard (recurse_merged "in" "E" (2 : Int).toNat))
      ∧ Traverse.to_gremlin ⟨"in", "E", false, true⟩
          = .ok (null_propagation_guard ("in" ++ "(" ++ safe_quoted_string "E" ++ ")"))) :=
  ⟨⟨by decide, by decide, by decide⟩,
    C5_recurse_unrolling "in" "E" 2 (by decide) (by decide) (by decide)⟩

/-- C3 counterexample: in the optional Traverse rendering of the valid
block `Traverse("out", "Zq", optional=True)`, the caller's edge name
occurs twice but only once inside quotes — the guard interpolates it
unescaped into the `<direction>_<edge_name>` property read — so
identifiers do not appear in the output only via the quoting helper. -/
theorem C3_counterexample :
    ¬ onlyQuotedOccurrences "Zq"
      (renderOrEmpty (Traverse.to_gremlin ⟨"out", "Zq", true, false⟩)) := by
  unfold onlyQuotedOccurrences
  decide

/-- C3 (amended): every renderer interpolates caller-supplied identifiers
(class names, edge names, mark names) through the quoting helper, except
that the optional Traverse rendering additionally interpolates the edge
name unescaped as part of the `<direction>_<edge_name>` property read in
its guard; `Recurse`'s hand-written edge quoting coincides with the
helper's output on every identifier accepted by the safety check. -/
theorem C3_identifier_quoting :
    (∀ d e : String, d ∈ ALLOWED_EDGE_DIRECTIONS → is_safe_string e = true →
      Traverse.to_gremlin ⟨d, e, false, false⟩ = .ok (d ++ "(" ++ safe_quoted_string e ++ ")")
      ∧ Traverse.to_gremlin ⟨d, e, false, true⟩
        = .ok ("ifThenElse\x7bit == null\x7d\x7bnull\x7d\x7bit." ++ d ++ "("
          ++ safe_quoted_string e ++ ")\x7d")
      ∧ Traverse.to_gremlin ⟨d, e, true, false⟩
        = .ok ("ifThenElse\x7bit." ++ (d ++ "_" ++ e)
          ++ " == null\x7d\x7bnull\x7d\x7bit." ++ d ++ "(" ++ safe_quoted_string e ++ ")\x7d")
      ∧ recurse_step d e = "." ++ d ++ "(" ++ safe_quoted_string e ++ ")")
    ∧ (∀ c : String, is_safe_string c = true →
      QueryRoot.to_gremlin ⟨[c]⟩
        = .ok ("g.V(" ++ squote ++ "@class" ++ squote ++ ", " ++ safe_quoted_string c ++ ")"))
    ∧ (∀ cs : List String, (∀ c ∈ cs, is_safe_string c = true) → cs.length ≠ 1 →
      QueryRoot.to_gremlin ⟨cs⟩
        = .ok ("g.V.has(" ++ squote ++ "@class" ++ squote ++ ", T.in, ["
          ++ String.intercalate "," (cs.map safe_quoted_string) ++ "])"))
    ∧ (∀ l : BaseLocation, l.at_property = false →
      MarkLocation.to_gremlin ⟨l⟩ = .ok ("as(" ++ safe_quoted_string l.mark_name ++ ")"))
    ∧ (∀ (l : BaseLocation) (o : Bool), l.at_property = false →
      Backtrack.to_gremlin ⟨l, o⟩
        = .ok ((if o then "optional" else "back") ++ "("
          ++ safe_quoted_string l.mark_name ++ ")")) := by
  refine ⟨?_, ?_, ?_, ?_, ?_⟩
  · intro d e hd he
    have hdir : validate_edge_direction d = .ok () := by simp [validate_edge_direction, hd]
    have hsafe : validate_safe_string e = .ok () := by simp [validate_safe_string, he]
    have hval : ∀ o w : Bool, Traverse.validate ⟨d, e, o, w⟩ = .ok () := by
      intro o w
      simp [Traverse.validate, hdir, hsafe]
    refine ⟨?_, ?_, ?_, ?_⟩
    · simp [Traverse.to_gremlin, hval]
    · simp only [Traverse.to_gremlin, hval, Bool.false_eq_true, if_false, ite_false,
        if_true, ite_true, safe_quoted_string, String.append_assoc]
    · simp [Traverse.to_gremlin, hval, String.append_assoc]
    · simp [recurse_step, safe_quoted_string, String.append_assoc]
  · intro c hc
    have hval : QueryRoot.validate ⟨[c]⟩ = .ok () := by
      simp [QueryRoot.validate, validate_all_safe, validate_safe_string, hc]
    simp [QueryRoot.to_gremlin, hval]
  · intro cs hcs hlen
    have hval : QueryRoot.validate ⟨cs⟩ = .ok () := validate_all_safe_ok hcs
    simp [QueryRoot.to_gremlin, hval, hlen]
  · intro l hl
    simp [MarkLocation.to_gremlin, MarkLocation.validate, validate_marked_location, hl]
  · intro l o hl
    simp [Backtrack.to_gremlin, Backtrack.validate, validate_marked_location, hl]

/-- Witness for C3 at concrete identifiers and locations. -/
theorem C3_witness :
    Traverse.to_gremlin ⟨"out", "Edge1", false, false⟩
      = .ok ("out" ++ "(" ++ safe_quoted_string "Edge1" ++ ")")
    ∧ QueryRoot.to_gremlin ⟨["Cls"]⟩
      = .ok ("g.V(" ++ squote ++ "@class" ++ squote ++ ", " ++ safe_quoted_string "Cls" ++ ")")
    ∧ QueryRoot.to_gremlin ⟨["C1", "C2"]⟩
      = .ok ("g.V.has(" ++ squote ++ "@class" ++ squote ++ ", T.in, ["
        ++ String.intercalate "," (["C1", "C2"].map safe_quoted_string) ++ "])")
    ∧ MarkLocation.to_gremlin ⟨⟨"m1", false⟩⟩ = .ok ("as(" ++ safe_quoted_string "m1" ++ ")")
    ∧ Backtrack.to_gremlin ⟨⟨"m1", false⟩, true⟩
      = .ok ((if true then "optional" else "back") ++ "(" ++ safe_quoted_string "m1" ++ ")") :=
  ⟨(C3_identifier_quoting.1 "out" "Edge1" (by decide) (by decide)).1,
    C3_identifier_quoting.2.1 "Cls" (by decide),
    C3_identifier_quoting.2.2.1 ["C1", "C2"] (by decide) (by decide),
    C3_identifier_quoting.2.2.2.1 ⟨"m1", false⟩ rfl,
    C3_identifier_quoting.2.2.2.2 ⟨"m1", false⟩ true rfl⟩

/-- C2 counterexample: constructing a `QueryRoot` (or `CoerceType`) from
an empty set does not raise — `validate` only checks the container kind
and each element, never non-emptiness — contradicting the claim that an
empty `start_class`/`target_class` set raises a validation error. -/
theorem C2_counterexample :
    QueryRoot.validate_dyn (PyVal.setV []) = .ok ()
    ∧ CoerceType.validate_dyn (PyVal.setV []) = .ok () :=
  ⟨rfl, rfl⟩

theorem all_isStr_map (cs : List String) : (cs.map PyVal.str).all PyVal.isStr = true := by
  induction cs with
  | nil => rfl
  | cons c rest ih =>
    simp only [List.map_cons, List.all_cons, PyVal.isStr, Bool.true_and]
    exact ih

theorem validate_all_safe_dyn_strs {cs : List String}
    (h : ∀ c ∈ cs, is_safe_string c = true) :
    validate_all_safe_dyn (cs.map PyVal.str) = .ok () := by
  induction cs with
  | nil => rfl
  | cons c rest ih =>
    have hc := h c (List.mem_cons_self c rest)
    simp only [List.map_cons, validate_all_safe_dyn, validate_safe_string_dyn,
      validate_safe_string, hc, if_true]
    exact ih (fun t ht => h t (List.mem_cons_of_mem c ht))

theorem validate_fields_dyn_ok {fs : List (String × Expr)}
    (h : ∀ kv ∈ fs, is_safe_string kv.1 = true) :
    validate_fields_dyn (fs.map (fun kv => (PyVal.str kv.1, PyVal.exprV kv.2))) = .ok () := by
  induction fs with
  | nil => rfl
  | cons kv rest ih =>
    obtain ⟨k, v⟩ := kv
    have hc := h (k, v) (List.mem_cons_self _ rest)
    simp only [List.map_cons, validate_fields_dyn, validate_safe_string_dyn,
      validate_safe_string, hc, if_true]
    exact ih (fun t ht => h t (List.mem_cons_of_mem _ ht))

/-- C2 (amended): for every block type, constructing from valid inputs
never raises; a wrong container kind, a wrong flag type, a non-Expression
value, a wrong location kind or `depth < 1` raise a validation error
whose message names the violated field; a non-identifier string raises
the safety helper's validation error (carrying the offending value); but
an empty `start_class`/`target_class` set is accepted. -/
theorem C2_block_validation :
    (∀ cs : List String, (∀ c ∈ cs, is_safe_string c = true) →
      QueryRoot.validate_dyn (PyVal.setV (cs.map PyVal.str)) = .ok ())
    ∧ QueryRoot.validate_dyn (PyVal.setV []) = .ok ()
    ∧ CoerceType.validate_dyn (PyVal.setV []) = .ok ()
    ∧ (∀ v : PyVal, v.isSet = false →
      ∃ m, QueryRoot.validate_dyn v = .error (.typeError m) ∧ substrB "start_class" m = true)
    ∧ (∀ d e : String, d ∈ ALLOWED_EDGE_DIRECTIONS → is_safe_string e = true →
      ∀ b₁ b₂ : Bool,
        Traverse.validate_dyn (PyVal.str d) (PyVal.str e) (PyVal.boolV b₁) (PyVal.boolV b₂)
          = .ok ())
    ∧ (∀ v : PyVal, v.isBool = false →
      ∃ m, Traverse.validate_dyn (PyVal.str "out") (PyVal.str "Foo") v (PyVal.boolV false)
        = .error (.typeError m) ∧ substrB "optional" m = true)
    ∧ (∀ s : String, is_safe_string s = false →
      Traverse.validate_dyn (PyVal.str "out") (PyVal.str s) (PyVal.boolV false)
        (PyVal.boolV false)
        = .error (.compilationError ("Unsafe string is not a valid identifier: " ++ s)))
    ∧ (∀ n : Int, 1 ≤ n →
      Recurse.validate_dyn (PyVal.str "out") (PyVal.str "E") (PyVal.intV n) (PyVal.boolV false)
        = .ok ())
    ∧ (∀ n : Int, n < 1 →
      Recurse.validate_dyn (PyVal.str "out") (PyVal.str "E") (PyVal.intV n) (PyVal.boolV false)
        = .error (.valueError ("depth (" ++ toString n ++ ") >= 1 does not hold!"))
      ∧ substrB "depth" ("depth (" ++ toString n ++ ") >= 1 does not hold!") = true)
    ∧ (∀ v : PyVal, v.isInt = false →
      ∃ m, Recurse.validate_dyn (PyVal.str "out") (PyVal.str "E") v (PyVal.boolV false)
        = .error (.typeError m) ∧ substrB "depth" m = true)
    ∧ (∀ fs : List (String × Expr), (∀ kv ∈ fs, is_safe_string kv.1 = true) →
      ConstructResult.validate_dyn
        (PyVal.dictV (fs.map (fun kv => (PyVal.str kv.1, PyVal.exprV kv.2)))) = .ok ())
    ∧ (∀ v : PyVal, v.isDict = false →
      ∃ m, ConstructResult.validate_dyn v = .error (.typeError m) ∧ substrB "fields" m = true)
    ∧ (∀ e : Expr, Filter.validate_dyn (PyVal.exprV e) = .ok ())
    ∧ (∀ v : PyVal, v.isExpr = false →
      ∃ m, Filter.validate_dyn v = .error (.typeError m) ∧ substrB "predicate" m = true)
    ∧ (∀ l : BaseLocation, l.at_property = false →
      MarkLocation.validate_dyn (PyVal.locV l) = .ok ())
    ∧ (∀ (l : BaseLocation) (b : Bool), l.at_property = false →
      Backtrack.validate_dyn (PyVal.locV l) (PyVal.boolV b) = .ok ())
    ∧ (∀ (l : BaseLocation) (v : PyVal), l.at_property = false → v.isBool = false →
      ∃ m, Backtrack.validate_dyn (PyVal.locV l) v = .error (.typeError m)
        ∧ substrB "optional" m = true)
    ∧ (∀ l : FoldScopeLocation, Fold.validate_dyn (PyVal.foldV l) = .ok ())
    ∧ (∀ v : PyVal, v.isFoldLoc = false →
      ∃ m, Fold.validate_dyn v = .error (.typeError m)
        ∧ substrB "fold_scope_location" m = true)
    ∧ (OutputSource.validate = .ok () ∧ Unfold.validate = .ok ()
      ∧ EndOptional.validate = .ok () ∧ GlobalOperationsStart.validate = .ok ()) := by
  refine ⟨?_, rfl, rfl, ?_, ?_, ?_, ?_, ?_, ?_, ?_, ?_, ?_, ?_, ?_, ?_, ?_, ?_, ?_, ?_,
    ⟨rfl, rfl, rfl, rfl⟩⟩
  · intro cs hcs
    simp only [QueryRoot.validate_dyn, all_isStr_map, if_true]
    exact validate_all_safe_dyn_strs hcs
  · intro v hv
    cases v <;>
      first
        | exact ⟨_, rfl, substrB_append_right _ _ _ (by decide)⟩
        | simp [PyVal.isSet] at hv
  · intro d e hd he b₁ b₂
    have hdir : validate_edge_direction d = .ok () := by simp [validate_edge_direction, hd]
    have hsafe : validate_safe_string e = .ok () := by simp [validate_safe_string, he]
    simp [Traverse.validate_dyn, validate_safe_string_dyn, hdir, hsafe, PyVal.isBool]
  · intro v hv
    refine ⟨"Expected bool optional, got: " ++ v.typeName, ?_,
      substrB_append_right _ _ _ (by decide)⟩
    have hout : validate_edge_direction "out" = .ok () := by decide
    have hFoo : validate_safe_string_dyn (PyVal.str "Foo") = .ok () := by decide
    simp [Traverse.validate_dyn, hout, hFoo, hv]
  · intro s hs
    have hout : validate_edge_direction "out" = .ok () := by decide
    simp [Traverse.validate_dyn, hout, validate_safe_string_dyn, validate_safe_string, hs]
  · intro n hn
    have houtd : validate_edge_direction_dyn (PyVal.str "out") = .ok () := by decide
    have hEs : validate_safe_string_dyn (PyVal.str "E") = .ok () := by decide
    simp [Recurse.validate_dyn, houtd, hEs, PyVal.isBool, PyVal.asInt, hn]
  · intro n hn
    have hn' : ¬ (1 ≤ n) := not_le.mpr hn
    constructor
    · have houtd : validate_edge_direction_dyn (PyVal.str "out") = .ok () := by decide
      have hEs : validate_safe_string_dyn (PyVal.str "E") = .ok () := by decide
      simp [Recurse.validate_dyn, houtd, hEs, PyVal.isBool, PyVal.asInt, hn']
    · exact substrB_append_right _ _ _ (substrB_append_right _ _ _ (by decide))
  · intro v hv
    refine ⟨"Expected int depth, got: " ++ v.typeName, ?_,
      substrB_append_right _ _ _ (by decide)⟩
    cases v <;>
      first
        | rfl
        | simp [PyVal.isInt] at hv
  · intro fs hfs
    simp only [ConstructResult.validate_dyn]
    exact validate_fields_dyn_ok hfs
  · intro v hv
    cases v <;>
      first
        | exact ⟨_, rfl, substrB_append_right _ _ _ (by decide)⟩
        | simp [PyVal.isDict] at hv
  · intro e
    rfl
  · intro v hv
    cases v <;>
      first
        | exact ⟨_, rfl, substrB_append_right _ _ _ (by decide)⟩
        | simp [PyVal.isExpr] at hv
  · intro l hl
    simp [MarkLocation.validate_dyn, validate_marked_location_dyn, validate_marked_location, hl]
  · intro l b hl
    simp [Backtrack.validate_dyn, validate_marked_location_dyn, validate_marked_location, hl,
      PyVal.isBool]
  · intro l v hl hv
    refine ⟨"Expected bool optional, got: " ++ v.typeName, ?_,
      substrB_append_right _ _ _ (by decide)⟩
    simp [Backtrack.validate_dyn, validate_marked_location_dyn, validate_marked_location,
      hl, hv]
  · intro l
    rfl
  · intro v hv
    cases v <;>
      first
        | exact ⟨_, rfl, substrB_append_right _ _ _ (by decide)⟩
        | simp [PyVal.isFoldLoc] at hv

/-- Witness for C2 at concrete inputs for every hypothesis-bearing
conjunct. -/
theorem C2_witness :
    QueryRoot.validate_dyn (PyVal.setV (["A"].map PyVal.str)) = .ok ()
    ∧ (∃ m, QueryRoot.validate_dyn (PyVal.listV []) = .error (.typeError m)
        ∧ substrB "start_class" m = true)
    ∧ Traverse.validate_dyn (PyVal.str "out") (PyVal.str "Foo") (PyVal.boolV true)
        (PyVal.boolV true) = .ok ()
    ∧ (∃ m, Traverse.validate_dyn (PyVal.str "out") (PyVal.str "Foo") (PyVal.intV 0)
        (PyVal.boolV false) = .error (.typeError m) ∧ substrB "optional" m = true)
    ∧ Traverse.validate_dyn (PyVal.str "out") (PyVal.str "bad name") (PyVal.boolV false)
        (PyVal.boolV false)
        = .error (.compilationError ("Unsafe string is not a valid identifier: " ++ "bad name"))
    ∧ Recurse.validate_dyn (PyVal.str "out") (PyVal.str "E") (PyVal.intV 1) (PyVal.boolV false)
        = .ok ()
    ∧ Recurse.validate_dyn (PyVal.str "out") (PyVal.str "E") (PyVal.intV 0) (PyVal.boolV false)
        = .error (.valueError ("depth (" ++ toString (0 : Int) ++ ") >= 1 does not hold!"))
    ∧ (∃ m, Recurse.validate_dyn (PyVal.str "out") (PyVal.str "E") (PyVal.str "two")
        (PyVal.boolV false) = .error (.typeError m) ∧ substrB "depth" m = true)
    ∧ ConstructResult.validate_dyn
        (PyVal.dictV ([("a", Expr.mk 1 "A")].map (fun kv => (PyVal.str kv.1, PyVal.exprV kv.2))))
        = .ok ()
    ∧ (∃ m, ConstructResult.validate_dyn (PyVal.setV []) = .error (.typeError m)
        ∧ substrB "fields" m = true)
    ∧ (∃ m, Filter.validate_dyn PyVal.noneV = .error (.typeError m)
        ∧ substrB "predicate" m = true)
    ∧ MarkLocation.validate_dyn (PyVal.locV ⟨"m1", false⟩) = .ok ()
    ∧ Backtrack.validate_dyn (PyVal.locV ⟨"m1", false⟩) (PyVal.boolV true) = .ok ()
    ∧ (∃ m, Backtrack.validate_dyn (PyVal.locV ⟨"m1", false⟩) (PyVal.str "yes")
        = .error (.typeError m) ∧ substrB "optional" m = true)
    ∧ (∃ m, Fold.validate_dyn (PyVal.locV ⟨"m1", false⟩) = .error (.typeError m)
        ∧ substrB "fold_scope_location" m = true) := by
  have h := C2_block_validation
  exact ⟨h.1 ["A"] (by decide),
    h.2.2.2.1 (PyVal.listV []) rfl,
    h.2.2.2.2.1 "out" "Foo" (by decide) (by decide) true true,
    h.2.2.2.2.2.1 (PyVal.intV 0) rfl,
    h.2.2.2.2.2.2.1 "bad name" (by decide),
    h.2.2.2.2.2.2.2.1 1 (by decide),
    (h.2.2.2.2.2.2.2.2.1 0 (by decide)).1,
    h.2.2.2.2.2.2.2.2.2.1 (PyVal.str "two") rfl,
    h.2.2.2.2.2.2.2.2.2.2.1 [("a", Expr.mk 1 "A")] (by decide),
    h.2.2.2.2.2.2.2.2.2.2.2.1 (PyVal.setV []) rfl,
    h.2.2.2.2.2.2.2.2.2.2.2.2.2.1 PyVal.noneV rfl,
    h.2.2.2.2.2.2.2.2.2.2.2.2.2.2.1 ⟨"m1", false⟩ rfl,
    h.2.2.2.2.2.2.2.2.2.2.2.2.2.2.2.1 ⟨"m1", false⟩ true rfl,
    h.2.2.2.2.2.2.2.2.2.2.2.2.2.2.2.2.1 ⟨"m1", false⟩ (PyVal.str "yes") rfl rfl,
    h.2.2.2.2.2.2.2.2.2.2.2.2.2.2.2.2.2.2.1 (PyVal.locV ⟨"m1", false⟩) rfl⟩

end GQLC
